import Mathlib

/-!
Shallow embedding of `src/py/models/utils/model.py`: factory functions that
assemble neural-network layer stacks by wiring hyperparameters into framework
layer constructors.  Framework layers are modelled as free constructor-call
records: a `Layer` value records exactly which constructor was invoked and
with which argument values.
-/

set_option autoImplicit false

namespace PsModel

/-- A framework layer, recorded as the constructor call that created it:
`Dense(units, activation, kernel_initializer, bias_initializer, name)`,
`LayerNormalization(name)`, or `ReLU(name)`.  `activation` is `none` when the
keyword is not passed (framework default of no activation). -/
inductive Layer where
  | Dense (units : Nat) (activation : Option String)
      (kernel_initializer : String) (bias_initializer : String) (name : String)
  | LayerNormalization (name : String)
  | ReLU (name : String)
deriving DecidableEq, Repr

/-- Whether a layer is a `Dense` layer. -/
def Layer.isDense : Layer → Bool
  | .Dense _ _ _ _ _ => true
  | _ => false

/-- The argument record passed to the external `SAB` constructor (the
self-attention block implemented in the sibling `attention` module; this file
only parameterizes it). -/
structure SAB where
  num_heads : Nat
  depth : Nat
  rff : Layer
  use_layer_norm : Bool
  query_kernel_initializer : String
  query_bias_initializer : String
  key_kernel_initializer : String
  key_bias_initializer : String
  value_kernel_initializer : String
  value_bias_initializer : String
  output_kernel_initializer : String
  output_bias_initializer : String
  name : String
deriving DecidableEq, Repr

/-- The argument record passed to the external `PMA` constructor (pooling by
multihead attention, implemented in the sibling `attention` module). -/
structure PMA where
  num_seeds : Nat
  num_heads : Nat
  depth : Nat
  rff : Layer
  rff_s : Layer
  use_layer_norm : Bool
  seed_initializer : String
  query_kernel_initializer : String
  query_bias_initializer : String
  key_kernel_initializer : String
  key_bias_initializer : String
  value_kernel_initializer : String
  value_bias_initializer : String
  output_kernel_initializer : String
  output_bias_initializer : String
  name : String
deriving DecidableEq, Repr

/-- Embedding of `create_dense_stack` from `model.py`: the list comprehension over
`enumerate(units)` producing, per element, a `Dense` layer, an optional
`LayerNormalization`, and a `ReLU`. -/
def create_dense_stack (units : List Nat) (name : String)
    (use_layer_norm : Bool) (omit_last_ln : Bool) : List Layer :=
  units.enum.flatMap fun (i, hidden) =>
    [Layer.Dense hidden none "he_normal" "zeros" s!"{name}/dense_{i+1}"]
    ++ (if use_layer_norm && (!omit_last_ln || (i != units.length - 1)) then
          [Layer.LayerNormalization s!"{name}/ln_{i+1}"]
        else [])
    ++ [Layer.ReLU s!"{name}/relu_{i+1}"]

/-- Embedding of `self_attention_block` from `model.py`: a single call to the external
`SAB` constructor with the given hyperparameters wired in. -/
def self_attention_block (num_heads : Nat) (depth : Nat) (rff_units : Nat)
    (name : String) (use_layer_norm : Bool) : SAB :=
  { num_heads := num_heads
    depth := depth
    rff := Layer.Dense rff_units (some "relu") "he_normal" "zeros" "rff"
    use_layer_norm := use_layer_norm
    query_kernel_initializer := "glorot_uniform"
    query_bias_initializer := "zeros"
    key_kernel_initializer := "glorot_uniform"
    key_bias_initializer := "zeros"
    value_kernel_initializer := "glorot_uniform"
    value_bias_initializer := "zeros"
    output_kernel_initializer := "glorot_uniform"
    output_bias_initializer := "zeros"
    name := s!"{name}/sab" }

/-- Embedding of `pooling_attention` from `model.py`: a single call to the external `PMA`
constructor with the given hyperparameters wired in. -/
def pooling_attention (num_seeds : Nat) (num_heads : Nat) (depth : Nat)
    (rff_units : Nat) (rff_s_units : Nat) (name : String)
    (use_layer_norm : Bool) : PMA :=
  { num_seeds := num_seeds
    num_heads := num_heads
    depth := depth
    rff := Layer.Dense rff_units (some "relu") "he_normal" "zeros" "rff"
    rff_s := Layer.Dense rff_s_units (some "relu") "he_normal" "zeros" "rff_s"
    use_layer_norm := use_layer_norm
    seed_initializer := "glorot_uniform"
    query_kernel_initializer := "glorot_uniform"
    query_bias_initializer := "zeros"
    key_kernel_initializer := "glorot_uniform"
    key_bias_initializer := "zeros"
    value_kernel_initializer := "glorot_uniform"
    value_bias_initializer := "zeros"
    output_kernel_initializer := "glorot_uniform"
    output_bias_initializer := "zeros"
    name := s!"{name}/pma" }

/-! ### Monadic refinement of the factories

The framework constructors are external calls that may carry effects
(exceptions, hidden state).  `create_dense_stackM`, `self_attention_blockM`
and `pooling_attentionM` are the same factories with the constructor calls
abstracted as monadic operations, sequenced exactly as Python evaluates them.
Instantiating the monad and the constructors recovers the pure factories and
lets us state the error-propagation and purity claims. -/

/-- The factory `create_dense_stack` with the three framework constructors abstracted as
monadic operations, in Python's evaluation order (per element: `Dense`, then
the conditional `LayerNormalization`, then `ReLU`). -/
def create_dense_stackM {m : Type → Type} [Monad m]
    (mkDense : Nat → Option String → String → String → String → m Layer)
    (mkLayerNorm : String → m Layer) (mkReLU : String → m Layer)
    (units : List Nat) (name : String)
    (use_layer_norm : Bool) (omit_last_ln : Bool) : m (List Layer) := do
  let chunks ← units.enum.mapM fun (i, hidden) => do
    let d ← mkDense hidden none "he_normal" "zeros" s!"{name}/dense_{i+1}"
    let mid ← if use_layer_norm && (!omit_last_ln || (i != units.length - 1)) then do
        let l ← mkLayerNorm s!"{name}/ln_{i+1}"
        pure [l]
      else
        pure ([] : List Layer)
    let r ← mkReLU s!"{name}/relu_{i+1}"
    pure ([d] ++ mid ++ [r])
  pure chunks.flatten

/-- The factory `self_attention_block` with the `Dense` and `SAB` constructors abstracted
as monadic operations (`mkSAB` may build an arbitrary result type `S` from the
argument record, since the external block is a black box to this module). -/
def self_attention_blockM {m : Type → Type} {S : Type} [Monad m]
    (mkDense : Nat → Option String → String → String → String → m Layer)
    (mkSAB : SAB → m S)
    (num_heads : Nat) (depth : Nat) (rff_units : Nat)
    (name : String) (use_layer_norm : Bool) : m S := do
  let rff ← mkDense rff_units (some "relu") "he_normal" "zeros" "rff"
  mkSAB { num_heads := num_heads
          depth := depth
          rff := rff
          use_layer_norm := use_layer_norm
          query_kernel_initializer := "glorot_uniform"
          query_bias_initializer := "zeros"
          key_kernel_initializer := "glorot_uniform"
          key_bias_initializer := "zeros"
          value_kernel_initializer := "glorot_uniform"
          value_bias_initializer := "zeros"
          output_kernel_initializer := "glorot_uniform"
          output_bias_initializer := "zeros"
          name := s!"{name}/sab" }

/-- The factory `pooling_attention` with the `Dense` and `PMA` constructors abstracted as
monadic operations. -/
def pooling_attentionM {m : Type → Type} {S : Type} [Monad m]
    (mkDense : Nat → Option String → String → String → String → m Layer)
    (mkPMA : PMA → m S)
    (num_seeds : Nat) (num_heads : Nat) (depth : Nat)
    (rff_units : Nat) (rff_s_units : Nat) (name : String)
    (use_layer_norm : Bool) : m S := do
  let rff ← mkDense rff_units (some "relu") "he_normal" "zeros" "rff"
  let rff_s ← mkDense rff_s_units (some "relu") "he_normal" "zeros" "rff_s"
  mkPMA { num_seeds := num_seeds
          num_heads := num_heads
          depth := depth
          rff := rff
          rff_s := rff_s
          use_layer_norm := use_layer_norm
          seed_initializer := "glorot_uniform"
          query_kernel_initializer := "glorot_uniform"
          query_bias_initializer := "zeros"
          key_kernel_initializer := "glorot_uniform"
          key_bias_initializer := "zeros"
          value_kernel_initializer := "glorot_uniform"
          value_bias_initializer := "zeros"
          output_kernel_initializer := "glorot_uniform"
          output_bias_initializer := "zeros"
          name := s!"{name}/pma" }

/-! ### A recursive characterization of `create_dense_stack`

`denseStackRec` rebuilds the comprehension by structural recursion, turning
the positional test `i != len(units) - 1` into "the tail is non-empty"; the
equivalence is proved once and every structural fact goes through it. -/

/-- Structural-recursion form of the dense-stack comprehension: `i` is the
0-based position of the current element in the original list. -/
def denseStackRec (name : String) (use_layer_norm : Bool) (omit_last_ln : Bool) :
    Nat → List Nat → List Layer
  | _, [] => []
  | i, hidden :: rest =>
    ([Layer.Dense hidden none "he_normal" "zeros" s!"{name}/dense_{i+1}"]
      ++ (if use_layer_norm && (!omit_last_ln || !rest.isEmpty) then
            [Layer.LayerNormalization s!"{name}/ln_{i+1}"]
          else [])
      ++ [Layer.ReLU s!"{name}/relu_{i+1}"])
    ++ denseStackRec name use_layer_norm omit_last_ln (i+1) rest

theorem denseStackRec_aux (units : List Nat) (name : String) (a b : Bool) :
    ∀ (t : List Nat) (k : Nat), k + t.length = units.length →
      (List.enumFrom k t).flatMap (fun (i, hidden) =>
        [Layer.Dense hidden none "he_normal" "zeros" s!"{name}/dense_{i+1}"]
        ++ (if a && (!b || (i != units.length - 1)) then
              [Layer.LayerNormalization s!"{name}/ln_{i+1}"]
            else [])
        ++ [Layer.ReLU s!"{name}/relu_{i+1}"])
      = denseStackRec name a b k t := by
  intro t
  induction t with
  | nil => intro k _; rfl
  | cons h t ih =>
    intro k hk
    have hcons : List.enumFrom k (h :: t) = (k, h) :: List.enumFrom (k + 1) t := rfl
    have hk' : (k + 1) + t.length = units.length := by
      simp [List.length_cons] at hk; omega
    have hc : (k != units.length - 1) = !t.isEmpty := by
      cases t with
      | nil =>
        have hkl : units.length - 1 = k := by
          simp [List.length_cons] at hk; omega
        simp [hkl]
      | cons x xs =>
        have hne : k ≠ units.length - 1 := by
          simp [List.length_cons] at hk; omega
        simp [List.isEmpty, bne, hne]
    rw [hcons, List.flatMap_cons, ih (k + 1) hk']
    simp only [denseStackRec, hc]

theorem create_dense_stack_eq_rec (units : List Nat) (name : String) (a b : Bool) :
    create_dense_stack units name a b = denseStackRec name a b 0 units := by
  rw [create_dense_stack, List.enum_eq_enumFrom]
  exact denseStackRec_aux units name a b units 0 (by simp)

/-! ### Structural facts about the dense stack -/

theorem denseStackRec_filter_isDense (name : String) (a b : Bool) :
    ∀ (t : List Nat) (k : Nat),
      (denseStackRec name a b k t).filter Layer.isDense
      = (List.enumFrom k t).map fun (i, hidden) =>
          Layer.Dense hidden none "he_normal" "zeros" s!"{name}/dense_{i+1}" := by
  intro t
  induction t with
  | nil => intro k; rfl
  | cons h t ih =>
    intro k
    have hcons : List.enumFrom k (h :: t) = (k, h) :: List.enumFrom (k + 1) t := rfl
    rw [hcons]
    cases hcond : a && (!b || !t.isEmpty) <;>
      simp [denseStackRec, hcond, List.filter_append, Layer.isDense, ih (k + 1)]

theorem denseStackRec_no_ln (name : String) (b : Bool) :
    ∀ (t : List Nat) (k : Nat),
      denseStackRec name false b k t
      = (List.enumFrom k t).flatMap fun (i, hidden) =>
          [Layer.Dense hidden none "he_normal" "zeros" s!"{name}/dense_{i+1}",
           Layer.ReLU s!"{name}/relu_{i+1}"] := by
  intro t
  induction t with
  | nil => intro k; rfl
  | cons h t ih =>
    intro k
    have hcons : List.enumFrom k (h :: t) = (k, h) :: List.enumFrom (k + 1) t := rfl
    rw [hcons]
    simp [denseStackRec, ih (k + 1)]

theorem denseStackRec_ln (name : String) :
    ∀ (t : List Nat) (k : Nat),
      denseStackRec name true false k t
      = (List.enumFrom k t).flatMap fun (i, hidden) =>
          [Layer.Dense hidden none "he_normal" "zeros" s!"{name}/dense_{i+1}",
           Layer.LayerNormalization s!"{name}/ln_{i+1}",
           Layer.ReLU s!"{name}/relu_{i+1}"] := by
  intro t
  induction t with
  | nil => intro k; rfl
  | cons h t ih =>
    intro k
    have hcons : List.enumFrom k (h :: t) = (k, h) :: List.enumFrom (k + 1) t := rfl
    rw [hcons]
    simp [denseStackRec, ih (k + 1)]

theorem denseStackRec_length_no_ln (name : String) (b : Bool) :
    ∀ (t : List Nat) (k : Nat),
      (denseStackRec name false b k t).length = 2 * t.length := by
  intro t
  induction t with
  | nil => intro k; rfl
  | cons h t ih =>
    intro k
    simp [denseStackRec, ih (k + 1)]
    omega

theorem denseStackRec_length_ln (name : String) :
    ∀ (t : List Nat) (k : Nat),
      (denseStackRec name true false k t).length = 3 * t.length := by
  intro t
  induction t with
  | nil => intro k; rfl
  | cons h t ih =>
    intro k
    simp [denseStackRec, ih (k + 1)]
    omega

theorem denseStackRec_length_ln_omit (name : String) :
    ∀ (t : List Nat) (k : Nat), t ≠ [] →
      (denseStackRec name true true k t).length = 3 * t.length - 1 := by
  intro t
  induction t with
  | nil => intro k hne; cases hne rfl
  | cons h t ih =>
    intro k _
    cases t with
    | nil => simp [denseStackRec]
    | cons x xs =>
      have hlen := ih (k + 1) (by simp)
      simp only [denseStackRec] at hlen ⊢
      simp [List.isEmpty] at hlen ⊢
      omega

theorem denseStackRec_ln_omit_decomp (name : String) :
    ∀ (t : List Nat) (lastU : Nat) (k : Nat),
      denseStackRec name true true k (t ++ [lastU])
      = denseStackRec name true false k t
        ++ [Layer.Dense lastU none "he_normal" "zeros"
              s!"{name}/dense_{k + t.length + 1}",
            Layer.ReLU s!"{name}/relu_{k + t.length + 1}"] := by
  intro t
  induction t with
  | nil =>
    intro lastU k
    simp [denseStackRec]
  | cons h t ih =>
    intro lastU k
    have hih := ih lastU (k + 1)
    have harith : (k + 1) + t.length + 1 = k + (h :: t).length + 1 := by
      simp [List.length_cons]; omega
    rw [harith] at hih
    have hne : (t ++ [lastU]).isEmpty = false := by
      cases t <;> rfl
    rw [List.cons_append, denseStackRec, hih, denseStackRec]
    simp [hne]

theorem denseStackRec_getLast (name : String) (a b : Bool) :
    ∀ (t : List Nat) (k : Nat), t ≠ [] →
      (denseStackRec name a b k t).getLast?
      = some (Layer.ReLU s!"{name}/relu_{k + t.length}") := by
  intro t
  induction t with
  | nil => intro k hne; cases hne rfl
  | cons h t ih =>
    intro k _
    cases t with
    | nil =>
      rw [denseStackRec, denseStackRec, List.append_nil, List.getLast?_concat]
      simp
    | cons x xs =>
      have hlast := ih (k + 1) (by simp)
      have harith : (k + 1) + (x :: xs).length = k + (h :: x :: xs).length := by
        simp [List.length_cons]; omega
      rw [denseStackRec, List.getLast?_append, hlast, harith, Option.or_some]

/-! ### Collapsing the monadic factories under effect-free constructors -/

theorem create_dense_stackM_pureCtor {m : Type → Type} [Monad m] [LawfulMonad m]
    (units : List Nat) (name : String) (a b : Bool) :
    create_dense_stackM (m := m)
      (fun u ac ki bi nm => pure (Layer.Dense u ac ki bi nm))
      (fun nm => pure (Layer.LayerNormalization nm))
      (fun nm => pure (Layer.ReLU nm))
      units name a b = pure (create_dense_stack units name a b) := by
  have key : ∀ (t : List Nat) (k : Nat),
      List.mapM (fun ((i, hidden) : Nat × Nat) => do
        let d ← (pure (Layer.Dense hidden none "he_normal" "zeros"
                  s!"{name}/dense_{i+1}") : m Layer)
        let mid ← if a && (!b || (i != units.length - 1)) then do
            let l ← (pure (Layer.LayerNormalization s!"{name}/ln_{i+1}") : m Layer)
            pure [l]
          else
            pure ([] : List Layer)
        let r ← (pure (Layer.ReLU s!"{name}/relu_{i+1}") : m Layer)
        pure ([d] ++ mid ++ [r])) (List.enumFrom k t)
      = pure ((List.enumFrom k t).map fun ((i, hidden) : Nat × Nat) =>
          [Layer.Dense hidden none "he_normal" "zeros" s!"{name}/dense_{i+1}"]
          ++ (if a && (!b || (i != units.length - 1)) then
                [Layer.LayerNormalization s!"{name}/ln_{i+1}"]
              else [])
          ++ [Layer.ReLU s!"{name}/relu_{i+1}"]) := by
    intro t
    induction t with
    | nil => intro k; rfl
    | cons h t ih =>
      intro k
      have hcons : List.enumFrom k (h :: t) = (k, h) :: List.enumFrom (k + 1) t := rfl
      rw [hcons, List.mapM_cons, ih (k + 1)]
      cases a <;> cases b <;> by_cases hk : k = units.length - 1 <;> simp [hk]
  unfold create_dense_stackM
  rw [List.enum_eq_enumFrom, key units 0, pure_bind]
  congr 1

/-! ### Error propagation through the monadic factories -/

theorem exceptBind_eq_error {E α β : Type} (x : Except E α) (f : α → Except E β)
    (e : E) (h : x >>= f = Except.error e) :
    x = Except.error e ∨ ∃ v, x = Except.ok v ∧ f v = Except.error e := by
  cases x with
  | error err =>
    left
    have : (Except.error err : Except E β) = Except.error e := h
    cases this
    rfl
  | ok v =>
    right
    exact ⟨v, rfl, h⟩

theorem mapM_except_error {E α β : Type} (f : α → Except E β) (e : E) :
    ∀ l : List α, l.mapM f = Except.error e → ∃ x ∈ l, f x = Except.error e := by
  intro l
  induction l with
  | nil =>
    intro h
    rw [List.mapM_nil] at h
    cases h
  | cons x l ih =>
    intro h
    rw [List.mapM_cons] at h
    rcases exceptBind_eq_error _ _ _ h with h1 | ⟨v, _, h2⟩
    · exact ⟨x, List.mem_cons_self x l, h1⟩
    · rcases exceptBind_eq_error _ _ _ h2 with h3 | ⟨w, _, h4⟩
      · obtain ⟨y, hy, hfy⟩ := ih h3
        exact ⟨y, List.mem_cons_of_mem x hy, hfy⟩
      · cases h4

theorem create_dense_stackM_error_origin {E : Type}
    (mkD : Nat → Option String → String → String → String → Except E Layer)
    (mkLN : String → Except E Layer) (mkR : String → Except E Layer)
    (units : List Nat) (name : String) (a b : Bool) (e : E)
    (h : create_dense_stackM mkD mkLN mkR units name a b = Except.error e) :
    (∃ u ac ki bi nm, mkD u ac ki bi nm = Except.error e) ∨
    (∃ nm, mkLN nm = Except.error e) ∨ (∃ nm, mkR nm = Except.error e) := by
  unfold create_dense_stackM at h
  rcases exceptBind_eq_error _ _ _ h with h1 | ⟨c, _, hp⟩
  · obtain ⟨p, _, hchunk⟩ := mapM_except_error _ _ _ h1
    obtain ⟨i, hid⟩ := p
    rcases exceptBind_eq_error _ _ _ hchunk with hd | ⟨d, _, h2⟩
    · exact Or.inl ⟨hid, none, _, _, _, hd⟩
    · by_cases hcond : (a && (!b || (i != units.length - 1))) = true
      · simp only [if_pos hcond] at h2
        rcases exceptBind_eq_error _ _ _ h2 with hl | ⟨l, _, h4⟩
        · exact Or.inr (Or.inl ⟨_, hl⟩)
        · rcases exceptBind_eq_error _ _ _ h4 with h5 | ⟨y, _, h6⟩
          · cases h5
          · rcases exceptBind_eq_error _ _ _ h6 with hr | ⟨r, _, h7⟩
            · exact Or.inr (Or.inr ⟨_, hr⟩)
            · cases h7
      · simp only [if_neg hcond] at h2
        rcases exceptBind_eq_error _ _ _ h2 with h5 | ⟨y, _, h6⟩
        · cases h5
        · rcases exceptBind_eq_error _ _ _ h6 with hr | ⟨r, _, h7⟩
          · exact Or.inr (Or.inr ⟨_, hr⟩)
          · cases h7
  · cases hp

theorem self_attention_blockM_error_origin {E S : Type}
    (mkD : Nat → Option String → String → String → String → Except E Layer)
    (mkSAB : SAB → Except E S)
    (num_heads depth rff_units : Nat) (name : String) (use_layer_norm : Bool)
    (e : E)
    (h : self_attention_blockM mkD mkSAB num_heads depth rff_units name
          use_layer_norm = Except.error e) :
    (∃ u ac ki bi nm, mkD u ac ki bi nm = Except.error e) ∨
    (∃ s, mkSAB s = Except.error e) := by
  unfold self_attention_blockM at h
  rcases exceptBind_eq_error _ _ _ h with h1 | ⟨v, _, h2⟩
  · exact Or.inl ⟨_, _, _, _, _, h1⟩
  · exact Or.inr ⟨_, h2⟩

theorem pooling_attentionM_error_origin {E S : Type}
    (mkD : Nat → Option String → String → String → String → Except E Layer)
    (mkPMA : PMA → Except E S)
    (num_seeds num_heads depth rff_units rff_s_units : Nat) (name : String)
    (use_layer_norm : Bool) (e : E)
    (h : pooling_attentionM mkD mkPMA num_seeds num_heads depth rff_units
          rff_s_units name use_layer_norm = Except.error e) :
    (∃ u ac ki bi nm, mkD u ac ki bi nm = Except.error e) ∨
    (∃ s, mkPMA s = Except.error e) := by
  unfold pooling_attentionM at h
  rcases exceptBind_eq_error _ _ _ h with h1 | ⟨v, _, h2⟩
  · exact Or.inl ⟨_, _, _, _, _, h1⟩
  · rcases exceptBind_eq_error _ _ _ h2 with h3 | ⟨w, _, h4⟩
    · exact Or.inl ⟨_, _, _, _, _, h3⟩
    · exact Or.inr ⟨_, h4⟩

theorem self_attention_blockM_pureCtor {m : Type → Type} {S : Type}
    [Monad m] [LawfulMonad m] (mkSAB : SAB → m S)
    (num_heads depth rff_units : Nat) (name : String) (use_layer_norm : Bool) :
    self_attention_blockM (m := m)
      (fun u ac ki bi nm => pure (Layer.Dense u ac ki bi nm)) mkSAB
      num_heads depth rff_units name use_layer_norm
    = mkSAB (self_attention_block num_heads depth rff_units name use_layer_norm) := by
  unfold self_attention_blockM
  rw [pure_bind]
  rfl

theorem pooling_attentionM_pureCtor {m : Type → Type} {S : Type}
    [Monad m] [LawfulMonad m] (mkPMA : PMA → m S)
    (num_seeds num_heads depth rff_units rff_s_units : Nat) (name : String)
    (use_layer_norm : Bool) :
    pooling_attentionM (m := m)
      (fun u ac ki bi nm => pure (Layer.Dense u ac ki bi nm)) mkPMA
      num_seeds num_heads depth rff_units rff_s_units name use_layer_norm
    = mkPMA (pooling_attention num_seeds num_heads depth rff_units rff_s_units
        name use_layer_norm) := by
  unfold pooling_attentionM
  rw [pure_bind, pure_bind]
  rfl

/-! ### The claims -/

/-- C1: for every units tuple, name and flag values, the `Dense` layers of
`create_dense_stack`, in order, are exactly one per element of `units`: the
i-th (0-based) has `units[i]` output units, kernel initializer `he_normal`,
bias initializer `zeros`, no activation, and name `name + "/dense_" + (i+1)`;
the hyperparameters are wired through unchanged. -/
theorem claim_C1_dense_layers (units : List Nat) (name : String)
    (use_layer_norm omit_last_ln : Bool) :
    (create_dense_stack units name use_layer_norm omit_last_ln).filter Layer.isDense
      = units.enum.map fun (i, hidden) =>
          Layer.Dense hidden none "he_normal" "zeros" s!"{name}/dense_{i+1}" := by
  rw [create_dense_stack_eq_rec, List.enum_eq_enumFrom]
  exact denseStackRec_filter_isDense name use_layer_norm omit_last_ln units 0

/-- C2: `self_attention_block` forwards `num_heads`, `depth` and
`use_layer_norm` unchanged to the external `SAB` constructor, sets every
query/key/value/output kernel initializer to `glorot_uniform` and every
corresponding bias initializer to `zeros`, names the block
`name + "/sab"`, and is nothing but that single constructor call: in any
monad, with an effect-free `Dense` constructor, it equals the `SAB`
constructor applied once to exactly this argument record. -/
theorem claim_C2_sab_wiring {m : Type → Type} [Monad m] [LawfulMonad m]
    {S : Type} (mkSAB : SAB → m S)
    (num_heads depth rff_units : Nat) (name : String) (use_layer_norm : Bool) :
    (self_attention_block num_heads depth rff_units name use_layer_norm).num_heads
        = num_heads ∧
    (self_attention_block num_heads depth rff_units name use_layer_norm).depth
        = depth ∧
    (self_attention_block num_heads depth rff_units name use_layer_norm).use_layer_norm
        = use_layer_norm ∧
    (self_attention_block num_heads depth rff_units name use_layer_norm).query_kernel_initializer
        = "glorot_uniform" ∧
    (self_attention_block num_heads depth rff_units name use_layer_norm).query_bias_initializer
        = "zeros" ∧
    (self_attention_block num_heads depth rff_units name use_layer_norm).key_kernel_initializer
        = "glorot_uniform" ∧
    (self_attention_block num_heads depth rff_units name use_layer_norm).key_bias_initializer
        = "zeros" ∧
    (self_attention_block num_heads depth rff_units name use_layer_norm).value_kernel_initializer
        = "glorot_uniform" ∧
    (self_attention_block num_heads depth rff_units name use_layer_norm).value_bias_initializer
        = "zeros" ∧
    (self_attention_block num_heads depth rff_units name use_layer_norm).output_kernel_initializer
        = "glorot_uniform" ∧
    (self_attention_block num_heads depth rff_units name use_layer_norm).output_bias_initializer
        = "zeros" ∧
    (self_attention_block num_heads depth rff_units name use_layer_norm).name
        = s!"{name}/sab" ∧
    self_attention_blockM (m := m)
        (fun u ac ki bi nm => pure (Layer.Dense u ac ki bi nm)) mkSAB
        num_heads depth rff_units name use_layer_norm
      = mkSAB (self_attention_block num_heads depth rff_units name use_layer_norm) :=
  ⟨rfl, rfl, rfl, rfl, rfl, rfl, rfl, rfl, rfl, rfl, rfl, rfl,
   self_attention_blockM_pureCtor mkSAB num_heads depth rff_units name
     use_layer_norm⟩

/-- Witness for C2 at concrete inputs: the instance hypotheses are satisfied
by the identity monad. -/
theorem claim_C2_sab_wiring_witness :
    (self_attention_block 2 8 64 "enc" true).num_heads = 2 :=
  (claim_C2_sab_wiring (m := Id) (fun s => pure s) 2 8 64 "enc" true).1

/-- C3: `pooling_attention` forwards `num_seeds`, `num_heads`, `depth` and
`use_layer_norm` unchanged to the external `PMA` constructor, sets the seed
initializer and every query/key/value/output kernel initializer to
`glorot_uniform` with `zeros` bias initializers, names the block
`name + "/pma"`, and is nothing but that constructor call: in any monad,
with an effect-free `Dense` constructor, it equals the `PMA` constructor
applied once to exactly this argument record. -/
theorem claim_C3_pma_wiring {m : Type → Type} [Monad m] [LawfulMonad m]
    {S : Type} (mkPMA : PMA → m S)
    (num_seeds num_heads depth rff_units rff_s_units : Nat) (name : String)
    (use_layer_norm : Bool) :
    (pooling_attention num_seeds num_heads depth rff_units rff_s_units name
        use_layer_norm).num_seeds = num_seeds ∧
    (pooling_attention num_seeds num_heads depth rff_units rff_s_units name
        use_layer_norm).num_heads = num_heads ∧
    (pooling_attention num_seeds num_heads depth rff_units rff_s_units name
        use_layer_norm).depth = depth ∧
    (pooling_attention num_seeds num_heads depth rff_units rff_s_units name
        use_layer_norm).use_layer_norm = use_layer_norm ∧
    (pooling_attention num_seeds num_heads depth rff_units rff_s_units name
        use_layer_norm).seed_initializer = "glorot_uniform" ∧
    (pooling_attention num_seeds num_heads depth rff_units rff_s_units name
        use_layer_norm).query_kernel_initializer = "glorot_uniform" ∧
    (pooling_attention num_seeds num_heads depth rff_units rff_s_units name
        use_layer_norm).query_bias_initializer = "zeros" ∧
    (pooling_attention num_seeds num_heads depth rff_units rff_s_units name
        use_layer_norm).key_kernel_initializer = "glorot_uniform" ∧
    (pooling_attention num_seeds num_heads depth rff_units rff_s_units name
        use_layer_norm).key_bias_initializer = "zeros" ∧
    (pooling_attention num_seeds num_heads depth rff_units rff_s_units name
        use_layer_norm).value_kernel_initializer = "glorot_uniform" ∧
    (pooling_attention num_seeds num_heads depth rff_units rff_s_units name
        use_layer_norm).value_bias_initializer = "zeros" ∧
    (pooling_attention num_seeds num_heads depth rff_units rff_s_units name
        use_layer_norm).output_kernel_initializer = "glorot_uniform" ∧
    (pooling_attention num_seeds num_heads depth rff_units rff_s_units name
        use_layer_norm).output_bias_initializer = "zeros" ∧
    (pooling_attention num_seeds num_heads depth rff_units rff_s_units name
        use_layer_norm).name = s!"{name}/pma" ∧
    pooling_attentionM (m := m)
        (fun u ac ki bi nm => pure (Layer.Dense u ac ki bi nm)) mkPMA
        num_seeds num_heads depth rff_units rff_s_units name use_layer_norm
      = mkPMA (pooling_attention num_seeds num_heads depth rff_units
          rff_s_units name use_layer_norm) :=
  ⟨rfl, rfl, rfl, rfl, rfl, rfl, rfl, rfl, rfl, rfl, rfl, rfl, rfl, rfl,
   pooling_attentionM_pureCtor mkPMA num_seeds num_heads depth rff_units
     rff_s_units name use_layer_norm⟩

/-- Witness for C3 at concrete inputs: the instance hypotheses are satisfied
by the identity monad. -/
theorem claim_C3_pma_wiring_witness :
    (pooling_attention 1 2 8 64 32 "pool" false).num_seeds = 1 :=
  (claim_C3_pma_wiring (m := Id) (fun s => pure s) 1 2 8 64 32 "pool" false).1

/-- C4: for a units tuple of length n, `create_dense_stack` yields exactly 2n
layers repeating Dense, ReLU when `use_layer_norm` is false; exactly 3n layers
repeating Dense, LayerNormalization, ReLU when `use_layer_norm` is true and
`omit_last_ln` is false; and exactly 3n-1 layers when both flags are true on a
non-empty tuple, where only the final unit's LayerNormalization is dropped:
writing the tuple as init ++ [last], the stack is the full
Dense/LayerNormalization/ReLU stack over init followed by the last unit's
Dense and ReLU with no LayerNormalization between them (final conjunct); the
last layer of any non-empty stack is the final ReLU. -/
theorem claim_C4_stack_shape (units : List Nat) (name : String) :
    (∀ b : Bool, create_dense_stack units name false b
        = units.enum.flatMap fun (i, hidden) =>
            [Layer.Dense hidden none "he_normal" "zeros" s!"{name}/dense_{i+1}",
             Layer.ReLU s!"{name}/relu_{i+1}"]) ∧
    (create_dense_stack units name true false
        = units.enum.flatMap fun (i, hidden) =>
            [Layer.Dense hidden none "he_normal" "zeros" s!"{name}/dense_{i+1}",
             Layer.LayerNormalization s!"{name}/ln_{i+1}",
             Layer.ReLU s!"{name}/relu_{i+1}"]) ∧
    (∀ b : Bool,
      (create_dense_stack units name false b).length = 2 * units.length) ∧
    ((create_dense_stack units name true false).length = 3 * units.length) ∧
    (units ≠ [] →
      (create_dense_stack units name true true).length = 3 * units.length - 1) ∧
    (∀ (a b : Bool), units ≠ [] →
      (create_dense_stack units name a b).getLast?
        = some (Layer.ReLU s!"{name}/relu_{units.length}")) ∧
    (∀ (init : List Nat) (lastU : Nat), units = init ++ [lastU] →
      create_dense_stack units name true true
        = create_dense_stack init name true false
          ++ [Layer.Dense lastU none "he_normal" "zeros"
                s!"{name}/dense_{init.length + 1}",
              Layer.ReLU s!"{name}/relu_{init.length + 1}"]) := by
  refine ⟨fun b => ?_, ?_, fun b => ?_, ?_, fun hne => ?_, fun a b hne => ?_,
          fun init lastU hunits => ?_⟩
  · rw [create_dense_stack_eq_rec, List.enum_eq_enumFrom]
    exact (denseStackRec_no_ln name b units 0).symm ▸ rfl
  · rw [create_dense_stack_eq_rec, List.enum_eq_enumFrom]
    exact (denseStackRec_ln name units 0).symm ▸ rfl
  · rw [create_dense_stack_eq_rec]
    exact denseStackRec_length_no_ln name b units 0
  · rw [create_dense_stack_eq_rec]
    exact denseStackRec_length_ln name units 0
  · rw [create_dense_stack_eq_rec]
    exact denseStackRec_length_ln_omit name units 0 hne
  · rw [create_dense_stack_eq_rec]
    have h := denseStackRec_getLast name a b units 0 hne
    rwa [Nat.zero_add] at h
  · subst hunits
    rw [create_dense_stack_eq_rec, create_dense_stack_eq_rec]
    have h := denseStackRec_ln_omit_decomp name init lastU 0
    rwa [Nat.zero_add] at h

/-- Witness for C4: the non-emptiness and decomposition hypotheses hold at
the two-element tuple. -/
theorem claim_C4_stack_shape_witness :
    ([4, 5] : List Nat) ≠ [] ∧
    (create_dense_stack [4, 5] "x" true true).length
      = 3 * ([4, 5] : List Nat).length - 1 ∧
    (create_dense_stack [4, 5] "x" true true).getLast?
      = some (Layer.ReLU s!"x/relu_{([4, 5] : List Nat).length}") ∧
    (create_dense_stack [4, 5] "x" true true
      = create_dense_stack [4] "x" true false
        ++ [Layer.Dense 5 none "he_normal" "zeros"
              s!"x/dense_{([4] : List Nat).length + 1}",
            Layer.ReLU s!"x/relu_{([4] : List Nat).length + 1}"]) :=
  ⟨by decide,
   (claim_C4_stack_shape [4, 5] "x").2.2.2.2.1 (by decide),
   (claim_C4_stack_shape [4, 5] "x").2.2.2.2.2.1 true true (by decide),
   (claim_C4_stack_shape [4, 5] "x").2.2.2.2.2.2 [4] 5 rfl⟩

/-- C5: none of the three factories handles failures itself: when every
constructor call succeeds, each factory succeeds with the wired-up result
(conjuncts 1-3), and whenever a factory fails, the error is exactly one
returned by a framework constructor call, propagated unchanged
(conjuncts 4-6). -/
theorem claim_C5_error_handling :
    (∀ (E : Type) (units : List Nat) (name : String) (a b : Bool),
      create_dense_stackM (m := Except E)
          (fun u ac ki bi nm => pure (Layer.Dense u ac ki bi nm))
          (fun nm => pure (Layer.LayerNormalization nm))
          (fun nm => pure (Layer.ReLU nm)) units name a b
        = Except.ok (create_dense_stack units name a b)) ∧
    (∀ (E : Type) (num_heads depth rff_units : Nat) (name : String)
        (use_layer_norm : Bool),
      self_attention_blockM (m := Except E)
          (fun u ac ki bi nm => pure (Layer.Dense u ac ki bi nm))
          (fun s => Except.ok s) num_heads depth rff_units name use_layer_norm
        = Except.ok (self_attention_block num_heads depth rff_units name
            use_layer_norm)) ∧
    (∀ (E : Type) (num_seeds num_heads depth rff_units rff_s_units : Nat)
        (name : String) (use_layer_norm : Bool),
      pooling_attentionM (m := Except E)
          (fun u ac ki bi nm => pure (Layer.Dense u ac ki bi nm))
          (fun s => Except.ok s) num_seeds num_heads depth rff_units
          rff_s_units name use_layer_norm
        = Except.ok (pooling_attention num_seeds num_heads depth rff_units
            rff_s_units name use_layer_norm)) ∧
    (∀ (E : Type)
        (mkD : Nat → Option String → String → String → String → Except E Layer)
        (mkLN mkR : String → Except E Layer) (units : List Nat) (name : String)
        (a b : Bool) (e : E),
      create_dense_stackM mkD mkLN mkR units name a b = Except.error e →
        (∃ u ac ki bi nm, mkD u ac ki bi nm = Except.error e) ∨
        (∃ nm, mkLN nm = Except.error e) ∨
        (∃ nm, mkR nm = Except.error e)) ∧
    (∀ (E S : Type)
        (mkD : Nat → Option String → String → String → String → Except E Layer)
        (mkSAB : SAB → Except E S) (num_heads depth rff_units : Nat)
        (name : String) (use_layer_norm : Bool) (e : E),
      self_attention_blockM mkD mkSAB num_heads depth rff_units name
          use_layer_norm = Except.error e →
        (∃ u ac ki bi nm, mkD u ac ki bi nm = Except.error e) ∨
        (∃ s, mkSAB s = Except.error e)) ∧
    (∀ (E S : Type)
        (mkD : Nat → Option String → String → String → String → Except E Layer)
        (mkPMA : PMA → Except E S)
        (num_seeds num_heads depth rff_units rff_s_units : Nat) (name : String)
        (use_layer_norm : Bool) (e : E),
      pooling_attentionM mkD mkPMA num_seeds num_heads depth rff_units
          rff_s_units name use_layer_norm = Except.error e →
        (∃ u ac ki bi nm, mkD u ac ki bi nm = Except.error e) ∨
        (∃ s, mkPMA s = Except.error e)) :=
  ⟨fun _ units name a b => create_dense_stackM_pureCtor units name a b,
   fun _ nh d ru n uln => self_attention_blockM_pureCtor _ nh d ru n uln,
   fun _ ns nh d ru rs n uln => pooling_attentionM_pureCtor _ ns nh d ru rs n uln,
   fun _ mkD mkLN mkR units name a b e h =>
     create_dense_stackM_error_origin mkD mkLN mkR units name a b e h,
   fun _ _ mkD mkSAB nh d ru n uln e h =>
     self_attention_blockM_error_origin mkD mkSAB nh d ru n uln e h,
   fun _ _ mkD mkPMA ns nh d ru rs n uln e h =>
     pooling_attentionM_error_origin mkD mkPMA ns nh d ru rs n uln e h⟩

/-- Witness for C5: a concrete success run, and a concrete failing `Dense`
constructor whose error the dense-stack factory is seen to propagate. -/
theorem claim_C5_error_handling_witness :
    (create_dense_stackM (m := Except Unit)
        (fun u ac ki bi nm => pure (Layer.Dense u ac ki bi nm))
        (fun nm => pure (Layer.LayerNormalization nm))
        (fun nm => pure (Layer.ReLU nm)) [3] "x" true false
      = Except.ok (create_dense_stack [3] "x" true false)) ∧
    ((∃ u ac ki bi nm,
        (fun (_ : Nat) (_ : Option String) (_ : String) (_ : String)
            (_ : String) => (Except.error 7 : Except Nat Layer)) u ac ki bi nm
          = Except.error 7) ∨
     (∃ nm, (fun (_ : String) =>
        (pure (Layer.LayerNormalization "z") : Except Nat Layer)) nm
          = Except.error 7) ∨
     (∃ nm, (fun (_ : String) =>
        (pure (Layer.ReLU "z") : Except Nat Layer)) nm = Except.error 7)) :=
  ⟨claim_C5_error_handling.1 Unit [3] "x" true false,
   claim_C5_error_handling.2.2.2.1 Nat
     (fun _ _ _ _ _ => Except.error 7)
     (fun _ => pure (Layer.LayerNormalization "z"))
     (fun _ => pure (Layer.ReLU "z")) [3] "x" false false 7 rfl⟩

/-- C6: the module holds no mutable state and construction is deterministic:
in any monad, with effect-free constructors, each factory is effect-free and
returns the canonical pure value of its arguments (conjuncts 1-3); in
particular, run against an arbitrary ambient state, each factory leaves the
state untouched and its result does not depend on it (conjuncts 4-6). -/
theorem claim_C6_purity {m : Type → Type} [Monad m] [LawfulMonad m]
    {σ : Type} (st : σ)
    (units : List Nat) (num_seeds num_heads depth rff_units rff_s_units : Nat)
    (name : String) (a b use_layer_norm : Bool) :
    (create_dense_stackM (m := m)
        (fun u ac ki bi nm => pure (Layer.Dense u ac ki bi nm))
        (fun nm => pure (Layer.LayerNormalization nm))
        (fun nm => pure (Layer.ReLU nm)) units name a b
      = pure (create_dense_stack units name a b)) ∧
    (self_attention_blockM (m := m)
        (fun u ac ki bi nm => pure (Layer.Dense u ac ki bi nm))
        (fun s => pure s) num_heads depth rff_units name use_layer_norm
      = pure (self_attention_block num_heads depth rff_units name
          use_layer_norm)) ∧
    (pooling_attentionM (m := m)
        (fun u ac ki bi nm => pure (Layer.Dense u ac ki bi nm))
        (fun s => pure s) num_seeds num_heads depth rff_units rff_s_units name
        use_layer_norm
      = pure (pooling_attention num_seeds num_heads depth rff_units
          rff_s_units name use_layer_norm)) ∧
    ((create_dense_stackM (m := StateM σ)
        (fun u ac ki bi nm => pure (Layer.Dense u ac ki bi nm))
        (fun nm => pure (Layer.LayerNormalization nm))
        (fun nm => pure (Layer.ReLU nm)) units name a b).run st
      = (create_dense_stack units name a b, st)) ∧
    ((self_attention_blockM (m := StateM σ)
        (fun u ac ki bi nm => pure (Layer.Dense u ac ki bi nm))
        (fun s => pure s) num_heads depth rff_units name use_layer_norm).run st
      = (self_attention_block num_heads depth rff_units name use_layer_norm,
         st)) ∧
    ((pooling_attentionM (m := StateM σ)
        (fun u ac ki bi nm => pure (Layer.Dense u ac ki bi nm))
        (fun s => pure s) num_seeds num_heads depth rff_units rff_s_units name
        use_layer_norm).run st
      = (pooling_attention num_seeds num_heads depth rff_units rff_s_units
          name use_layer_norm, st)) := by
  refine ⟨create_dense_stackM_pureCtor units name a b,
          self_attention_blockM_pureCtor _ num_heads depth rff_units name
            use_layer_norm,
          pooling_attentionM_pureCtor _ num_seeds num_heads depth rff_units
            rff_s_units name use_layer_norm, ?_, ?_, ?_⟩
  · rw [create_dense_stackM_pureCtor units name a b]
    rfl
  · rw [self_attention_blockM_pureCtor (fun s => (pure s : StateM σ SAB))
          num_heads depth rff_units name use_layer_norm]
    rfl
  · rw [pooling_attentionM_pureCtor (fun s => (pure s : StateM σ PMA))
          num_seeds num_heads depth rff_units rff_s_units name use_layer_norm]
    rfl

/-- Witness for C6 at concrete inputs: the instance hypotheses are satisfied
by the identity monad, and an arbitrary ambient state 11 is left untouched. -/
theorem claim_C6_purity_witness :
    (create_dense_stackM (m := StateM Nat)
        (fun u ac ki bi nm => pure (Layer.Dense u ac ki bi nm))
        (fun nm => pure (Layer.LayerNormalization nm))
        (fun nm => pure (Layer.ReLU nm)) [2] "x" true false).run 11
      = (create_dense_stack [2] "x" true false, 11) :=
  (claim_C6_purity (m := Id) 11 [2] 1 2 8 64 32 "x" true false true).2.2.2.1

/-- C7: the row-wise feed-forward layer handed to the attention blocks is a
single Dense layer with ReLU activation: `self_attention_block` passes `SAB`
an `rff` of `rff_units` with activation `relu`, kernel initializer
`he_normal`, bias initializer `zeros` and name `rff`, and
`pooling_attention` passes `PMA` both such an `rff` and an `rff_s` of
`rff_s_units` named `rff_s`. -/
theorem claim_C7_rff_layers (num_seeds num_heads depth rff_units rff_s_units : Nat)
    (name : String) (use_layer_norm : Bool) :
    (self_attention_block num_heads depth rff_units name use_layer_norm).rff
        = Layer.Dense rff_units (some "relu") "he_normal" "zeros" "rff" ∧
    (pooling_attention num_seeds num_heads depth rff_units rff_s_units name
        use_layer_norm).rff
        = Layer.Dense rff_units (some "relu") "he_normal" "zeros" "rff" ∧
    (pooling_attention num_seeds num_heads depth rff_units rff_s_units name
        use_layer_norm).rff_s
        = Layer.Dense rff_s_units (some "relu") "he_normal" "zeros" "rff_s" :=
  ⟨rfl, rfl, rfl⟩

/-- C8: `omit_last_ln` has no effect when `use_layer_norm` is false: the pure
results are identical, and even with arbitrary (possibly effectful)
constructors the two calls are the same computation. -/
theorem claim_C8_omit_last_ln_noop (units : List Nat) (name : String) :
    create_dense_stack units name false true
      = create_dense_stack units name false false ∧
    (∀ (m : Type → Type) [Monad m]
        (mkD : Nat → Option String → String → String → String → m Layer)
        (mkLN mkR : String → m Layer),
      create_dense_stackM mkD mkLN mkR units name false true
        = create_dense_stackM mkD mkLN mkR units name false false) := by
  constructor
  · simp [create_dense_stack]
  · intro m _ mkD mkLN mkR
    unfold create_dense_stackM
    simp

/-- C9: on the empty units tuple, `create_dense_stack` returns the empty list
for every name and flag combination, and — for arbitrary constructors in an
arbitrary monad — the factory invokes no layer constructor at all. -/
theorem claim_C9_empty_stack :
    (∀ (name : String) (a b : Bool), create_dense_stack [] name a b = []) ∧
    (∀ (m : Type → Type) [Monad m] [LawfulMonad m]
        (mkD : Nat → Option String → String → String → String → m Layer)
        (mkLN mkR : String → m Layer) (name : String) (a b : Bool),
      create_dense_stackM mkD mkLN mkR [] name a b = pure []) := by
  constructor
  · intro name a b; rfl
  · intro m _ _ mkD mkLN mkR name a b
    unfold create_dense_stackM
    rw [show List.enum ([] : List Nat) = [] from rfl, List.mapM_nil, pure_bind]
    rfl

/-- Witness for C9: the identity monad with concrete constructors satisfies
the instance hypotheses. -/
theorem claim_C9_empty_stack_witness :
    create_dense_stack [] "x" true true = [] ∧
    create_dense_stackM (m := Id)
        (fun u ac ki bi nm => pure (Layer.Dense u ac ki bi nm))
        (fun nm => pure (Layer.LayerNormalization nm))
        (fun nm => pure (Layer.ReLU nm)) [] "x" true true = pure [] :=
  ⟨claim_C9_empty_stack.1 "x" true true,
   claim_C9_empty_stack.2 Id
     (fun u ac ki bi nm => pure (Layer.Dense u ac ki bi nm))
     (fun nm => pure (Layer.LayerNormalization nm))
     (fun nm => pure (Layer.ReLU nm)) "x" true true⟩

end PsModel
